import Mathlib

/-!
Shallow embedding of pkg/tlsx/ztls/ztls.go (package ztls of the tlsx
repository): a TLS-grabbing client built on the zmap zcrypto/tls library.

The external collaborators (the TCP dialer, the zcrypto handshake engine and
the zcrypto x509 decoder) are modelled as explicit inputs to `Connect`:
a `ConnEnv` value carries the dial outcome, the outcome of the handshake
engine, the handshake log the engine would expose, which racer (timer vs.
handshake goroutine) wins the channel race, and the decoder function.
Everything the Go function itself computes is translated line by line from
the source.

Go `(value, error)` return pairs are modelled as pairs of `Option`s, and
Go nil pointers as `Option.none`.  Strings in scope here (host names,
ports, version tokens) are ASCII, so Go byte-level string operations
coincide with the character-level ones used below.
-/

namespace Ztls

/-! ### zcrypto/tls version constants (numeric protocol identifiers) -/

def VersionSSL30 : Nat := 0x0300

def VersionTLS10 : Nat := 0x0301

def VersionTLS11 : Nat := 0x0302

def VersionTLS12 : Nat := 0x0303

/-- Model of `versionStringToTLSVersion` (ztls.go lines 24-29): map from
version token to numeric version; the Go comma-ok lookup is `Option`. -/
def versionStringToTLSVersion (s : String) : Option Nat :=
  if s = "ssl30" then some VersionSSL30
  else if s = "tls10" then some VersionTLS10
  else if s = "tls11" then some VersionTLS11
  else if s = "tls12" then some VersionTLS12
  else none

/-- Model of `versionToTLSVersionString` (ztls.go lines 32-37): map from
numeric version to token; a missing key yields the Go zero value "". -/
def versionToTLSVersionString (v : Nat) : String :=
  if v = VersionSSL30 then "ssl30"
  else if v = VersionTLS10 then "tls10"
  else if v = VersionTLS11 then "tls11"
  else if v = VersionTLS12 then "tls12"
  else ""

/-! ### Data model -/

/-- Model of `clients.Options`: caller-supplied construction options. -/
structure Options where
  Timeout : Nat
  ServerName : String
  MinVersion : String
  MaxVersion : String
  CertsOnly : Bool
  VerifyServerCertificate : Bool
deriving DecidableEq, Repr

/-- The subset of the zcrypto `tls.Config` fields this client sets. -/
structure Config where
  CertsOnly : Bool
  MinVersion : Nat
  MaxVersion : Nat
  InsecureSkipVerify : Bool
  ServerName : String
deriving DecidableEq, Repr

/-- Model of `Client` (ztls.go lines 18-21): a dialer (here just its
timeout) and a pointer to a `tls.Config`. -/
structure Client where
  dialerTimeout : Nat
  tlsConfig : Config
deriving DecidableEq, Repr

/-- An x509 subject or issuer name (the fields the client projects). -/
structure Name where
  CommonName : String
  Organization : List String
deriving DecidableEq, Repr

/-- The fields of a decoded `x509.Certificate` that the client projects. -/
structure Certificate where
  DNSNames : List String
  EmailAddresses : List String
  Issuer : Name
  Subject : Name
deriving DecidableEq, Repr

/-- Model of `tls.SimpleCertificate`: raw DER bytes. -/
structure SimpleCertificate where
  Raw : List Nat
deriving DecidableEq, Repr

/-- Model of `clients.CertificateResponse`; the field defaults give the Go
zero value of the struct. -/
structure CertificateResponse where
  DNSNames : List String := []
  Emails : List String := []
  IssuerCommonName : String := ""
  IssuerOrganization : List String := []
  SubjectCommonName : String := ""
  SubjectOrganization : List String := []
deriving DecidableEq, Repr

/-- Model of the `clients.Response` fields populated by this client. -/
structure Response where
  Host : String
  Port : String
  Version : String
  TLSConnection : String
  Leaf : CertificateResponse
  Chain : List CertificateResponse := []
deriving DecidableEq, Repr

/-- The ServerHello part of the zcrypto handshake log. -/
structure ServerHello where
  Version : Nat
deriving DecidableEq, Repr

/-- The ServerCertificates part of the zcrypto handshake log. -/
structure Certificates where
  Certificate : SimpleCertificate
  Chain : List SimpleCertificate
deriving DecidableEq, Repr

/-- The zcrypto handshake log (the parts `Connect` reads). -/
structure HandshakeLog where
  ServerHello : ServerHello
  ServerCertificates : Certificates
deriving DecidableEq, Repr

/-! ### Errors -/

/-- Outcome of the handshake-engine `Handshake()` call: either the
`tls.ErrCertsOnly` sentinel or some other engine error. -/
inductive EngineError where
  | errCertsOnly
  | other (msg : String)
deriving DecidableEq, Repr

/-- Go error values flowing through `Connect`.  `timeout` is the
`timeoutError{}` value of ztls.go line 74; `wrap` is `errors.Wrap`. -/
inductive GoError where
  | timeout
  | engine (e : EngineError)
  | dialErr (msg : String)
  | wrap (msg : String) (cause : GoError)
deriving DecidableEq, Repr

/-- Model of `errors.Cause`: strip the wrappers down to the root error. -/
def GoError.cause : GoError → GoError
  | .wrap _ e => GoError.cause e
  | e => e

/-- Model of `timeoutError.Error()` (ztls.go line 76). -/
def timeoutErrorMessage : String := "tls: DialWithDialer timed out"

/-- Model of `timeoutError.Timeout()` (ztls.go line 77). -/
def timeoutErrorTimeout : Bool := true

/-- Model of `timeoutError.Temporary()` (ztls.go line 78). -/
def timeoutErrorTemporary : Bool := true

/-! ### Client construction -/

/-- Model of `New` (ztls.go lines 40-72), with the Go-style
`(client, error)` return: exactly one component is non-`none`. -/
def New (options : Options) : Option Client × Option String :=
  let tlsConfig : Config := {
    CertsOnly := options.CertsOnly
    MinVersion := VersionSSL30
    MaxVersion := VersionTLS12
    InsecureSkipVerify := !options.VerifyServerCertificate
    ServerName := "" }
  let tlsConfig :=
    if options.ServerName ≠ "" then
      { tlsConfig with ServerName := options.ServerName }
    else tlsConfig
  if options.MinVersion ≠ "" then
    match versionStringToTLSVersion options.MinVersion with
    | none => (none, some ("invalid min version specified: " ++ options.MinVersion))
    | some version =>
      let tlsConfig := { tlsConfig with MinVersion := version }
      if options.MaxVersion ≠ "" then
        match versionStringToTLSVersion options.MaxVersion with
        | none => (none, some ("invalid max version specified: " ++ options.MaxVersion))
        | some v2 =>
          (some { dialerTimeout := options.Timeout, tlsConfig := { tlsConfig with MaxVersion := v2 } }, none)
      else (some { dialerTimeout := options.Timeout, tlsConfig := tlsConfig }, none)
  else
    if options.MaxVersion ≠ "" then
      match versionStringToTLSVersion options.MaxVersion with
      | none => (none, some ("invalid max version specified: " ++ options.MaxVersion))
      | some v2 =>
        (some { dialerTimeout := options.Timeout, tlsConfig := { tlsConfig with MaxVersion := v2 } }, none)
    else (some { dialerTimeout := options.Timeout, tlsConfig := tlsConfig }, none)

/-! ### String helpers used by Connect -/

/-- Character membership in a string (model of `strings.Contains` for a
single character). -/
def containsChar (s : String) (c : Char) : Bool :=
  s.toList.contains c

/-- Model of `net.JoinHostPort`: brackets the host when it has a colon. -/
def JoinHostPort (host port : String) : String :=
  if containsChar host ':' then "[" ++ host ++ "]:" ++ port
  else host ++ ":" ++ port

/-- Index of the last occurrence of `c` in `l`, if any. -/
def lastIndexOfChar (l : List Char) (c : Char) : Option Nat :=
  match l with
  | [] => none
  | x :: xs =>
    match lastIndexOfChar xs c with
    | some i => some (i + 1)
    | none => if x = c then some 0 else none

/-- Model of `strings.LastIndex s c` for a single character: -1 absent. -/
def LastIndex (s : String) (c : Char) : Int :=
  match lastIndexOfChar s.toList c with
  | none => -1
  | some i => (i : Int)

/-- Model of the Go slice expression s[:n]. -/
def goSliceTo (s : String) (n : Nat) : String :=
  (s.toList.take n).asString

/-! ### Connect -/

/-- Trace events recorded by the model of `Connect`, in program order. -/
inductive Event where
  | makeErrChannel
  | scheduleTimer (timeout : Nat)
  | dial
  | handshakeSync
  | handshakeAsync
deriving DecidableEq, Repr

/-- The external world of one `Connect` call: dial outcome, handshake-engine
outcome and log, which write is read first from the two-slot channel when a
timer exists, and the x509 decoder (a Go nil result is `none`). -/
structure ConnEnv where
  dialResult : Option String
  handshakeError : Option EngineError
  handshakeLog : HandshakeLog
  timeoutWins : Bool
  parse : List Nat → Option Certificate

/-- Everything observable about one `Connect` call: the Go-style
`(response, error)` pair, the per-connection config the code derived
(lines 105-110), the config actually passed to `tls.Client` (line 112),
the client state after the call, and the event trace. -/
structure ConnectOutcome where
  response : Option Response
  error : Option GoError
  derivedConfig : Option Config
  usedConfig : Option Config
  clientAfter : Client
  events : List Event

/-- Model of `parseSimpleTLSCertificate` (ztls.go lines 143-146): parse,
discarding the error; a failed parse yields the nil pointer (`none`). -/
def parseSimpleTLSCertificate (parse : List Nat → Option Certificate)
    (cert : SimpleCertificate) : Option Certificate :=
  parse cert.Raw

/-- Model of `convertCertificateToResponse` (ztls.go lines 148-159): a nil
certificate becomes the zero-value record, else project the fields. -/
def convertCertificateToResponse : Option Certificate → CertificateResponse
  | none => {}
  | some cert => {
      DNSNames := cert.DNSNames
      Emails := cert.EmailAddresses
      IssuerCommonName := cert.Issuer.CommonName
      IssuerOrganization := cert.Issuer.Organization
      SubjectCommonName := cert.Subject.CommonName
      SubjectOrganization := cert.Subject.Organization }

/-- The handshake-race outcome read from the channel (ztls.go lines
113-120): with timeout 0 the handshake runs synchronously; otherwise the
first write read from the channel is the `timeoutError{}` of the timer or
the result of the handshake goroutine, per `timeoutWins`. -/
def raceResult (timeout : Nat) (timeoutWins : Bool)
    (handshakeError : Option EngineError) : Option GoError :=
  if timeout = 0 then handshakeError.map GoError.engine
  else if timeoutWins then some GoError.timeout
  else handshakeError.map GoError.engine

/-- Model of ztls.go lines 127-139: the response built from the handshake
log on a successful (or certs-only) handshake.  The uint16 cast on the
ServerHello version of line 129 is the mod 65536. -/
def buildResponse (parse : List Nat → Option Certificate)
    (hostname port : String) (hl : HandshakeLog) : Response := {
  Host := hostname
  Port := port
  Version := versionToTLSVersionString (hl.ServerHello.Version % 65536)
  TLSConnection := "ztls"
  Leaf := convertCertificateToResponse
    (parseSimpleTLSCertificate parse hl.ServerCertificates.Certificate)
  Chain := hl.ServerCertificates.Chain.map fun cert =>
    convertCertificateToResponse (parseSimpleTLSCertificate parse cert) }

/-- Model of `Connect` (ztls.go lines 81-141), translated line by line.
Note that line 112 passes `c.tlsConfig` — the base config — to
`tls.Client`, not the local copy `config` built on lines 105-110. -/
def Connect (c : Client) (env : ConnEnv) (hostname port : String) : ConnectOutcome :=
  let address := JoinHostPort hostname port
  let timeout := c.dialerTimeout
  -- lines 85-91: channel creation and timer scheduling, before the dial
  let ev0 : List Event :=
    if timeout ≠ 0 then [Event.makeErrChannel, Event.scheduleTimer timeout] else []
  -- line 93: the dial
  match env.dialResult with
  | some dialMsg =>
    { response := none
      error := some (GoError.wrap "could not connect to address" (GoError.dialErr dialMsg))
      derivedConfig := none
      usedConfig := none
      clientAfter := c
      events := ev0 ++ [Event.dial] }
  | none =>
    -- lines 99-103: derive the host portion of the address
    let colonPos : Int := LastIndex address ':'
    let colonPos : Nat := if colonPos = -1 then address.length else colonPos.toNat
    let hostnameValue := goSliceTo address colonPos
    -- lines 105-110: copy-on-write server-name override into a local copy
    let config := c.tlsConfig
    let config :=
      if config.ServerName = "" then { config with ServerName := hostnameValue }
      else config
    -- line 112: tls.Client(conn, c.tlsConfig) — the base config is passed
    let usedConfig := c.tlsConfig
    -- lines 113-120: the handshake / timer race
    let hsEvent := if timeout = 0 then Event.handshakeSync else Event.handshakeAsync
    let err := raceResult timeout env.timeoutWins env.handshakeError
    -- lines 121-123: the certs-only sentinel is success
    let err := if err = some (GoError.engine EngineError.errCertsOnly) then none else err
    match err with
    | some e =>
      { response := none
        error := some (GoError.wrap "could not do tls handshake" e)
        derivedConfig := some config
        usedConfig := some usedConfig
        clientAfter := c
        events := ev0 ++ [Event.dial, hsEvent] }
    | none =>
      -- lines 127-140: build the response from the handshake log
      { response := some (buildResponse env.parse hostname port env.handshakeLog)
        error := none
        derivedConfig := some config
        usedConfig := some usedConfig
        clientAfter := c
        events := ev0 ++ [Event.dial, hsEvent] }

/-! ### Concrete fixtures used by witnesses and counterexamples -/

/-- A decoder that fails on every input. -/
def noParse : List Nat → Option Certificate := fun _ => none

/-- A decoder returning a fixed populated certificate on every input. -/
def okParse : List Nat → Option Certificate := fun _ =>
  some {
    DNSNames := ["example.com"]
    EmailAddresses := ["admin@example.com"]
    Issuer := { CommonName := "Example CA", Organization := ["Example Org"] }
    Subject := { CommonName := "example.com", Organization := ["Example Inc"] } }

/-- A small concrete handshake log. -/
def sampleLog : HandshakeLog := {
  ServerHello := { Version := VersionTLS12 }
  ServerCertificates := {
    Certificate := { Raw := [1] }
    Chain := [{ Raw := [2] }, { Raw := [3] }] } }

/-- A concrete client with no fixed server name and timeout 0. -/
def sampleClient0 : Client := {
  dialerTimeout := 0
  tlsConfig := {
    CertsOnly := false
    MinVersion := VersionSSL30
    MaxVersion := VersionTLS12
    InsecureSkipVerify := true
    ServerName := "" } }

/-- A concrete client with no fixed server name and timeout 5. -/
def sampleClient5 : Client := {
  dialerTimeout := 5
  tlsConfig := {
    CertsOnly := false
    MinVersion := VersionSSL30
    MaxVersion := VersionTLS12
    InsecureSkipVerify := true
    ServerName := "" } }

/-! ### Helper lemmas (shared) -/

/-- In every branch of `Connect`, the returned client state is the input
client: the code copies the config before overriding the server name. -/
theorem Connect_clientAfter_eq (c : Client) (env : ConnEnv) (hostname port : String) :
    (Connect c env hostname port).clientAfter = c := by
  obtain ⟨dr, he, hl, tw, pf⟩ := env
  cases dr with
  | some msg => rfl
  | none =>
    simp only [Connect]
    split <;> rfl

/-- Inversion: a response produced by `Connect` is exactly the one built
from the handshake log. -/
theorem Connect_response_some (c : Client) (env : ConnEnv) (hostname port : String)
    (resp : Response) (hok : (Connect c env hostname port).response = some resp) :
    resp = buildResponse env.parse hostname port env.handshakeLog := by
  obtain ⟨dr, he, hl, tw, pf⟩ := env
  cases dr with
  | some msg => simp [Connect] at hok
  | none =>
    simp only [Connect] at hok
    split at hok
    · simp at hok
    · simp only [Option.some.injEq] at hok
      exact hok.symm

/-- When the dial succeeds and the effective race outcome is `none` or the
certs-only sentinel, `Connect` succeeds with the built response. -/
theorem Connect_success (c : Client) (env : ConnEnv) (hostname port : String)
    (hd : env.dialResult = none)
    (hr : raceResult c.dialerTimeout env.timeoutWins env.handshakeError = none ∨
      raceResult c.dialerTimeout env.timeoutWins env.handshakeError =
        some (GoError.engine EngineError.errCertsOnly)) :
    (Connect c env hostname port).response =
      some (buildResponse env.parse hostname port env.handshakeLog) ∧
    (Connect c env hostname port).error = none := by
  obtain ⟨dr, he, hl, tw, pf⟩ := env
  simp only at hd hr
  subst hd
  simp only [Connect]
  rcases hr with hr | hr <;> rw [hr] <;> simp

/-! ### Claim C1 -/

/-- Environment for the server-name observation: dial succeeds, handshake
succeeds, decoder fails on everything. -/
def envC1 : ConnEnv := {
  dialResult := none
  handshakeError := none
  handshakeLog := sampleLog
  timeoutWins := false
  parse := noParse }

/-- C1: with an empty base server name, Connect derives the host portion of
the dialed address into a local config copy, but the config actually passed
to `tls.Client` on line 112 is the base config, whose server name is still
empty — the derived name never reaches the handshake engine. -/
theorem Connect_derived_server_name_not_used :
    (Connect sampleClient0 envC1 "example.com" "443").derivedConfig.map Config.ServerName =
      some "example.com"
  ∧ (Connect sampleClient0 envC1 "example.com" "443").usedConfig =
      some sampleClient0.tlsConfig
  ∧ sampleClient0.tlsConfig.ServerName = "" := by decide

/-! ### Claim C2 -/

/-- C2: with a non-zero timeout, when the timer write is read first,
Connect returns the wrapped `timeoutError{}` — whose Timeout and Temporary
markers are true, and whose root cause is not an engine error — and no
response. -/
theorem Connect_timeout_error (c : Client) (env : ConnEnv) (hostname port : String)
    (ht : c.dialerTimeout ≠ 0) (hd : env.dialResult = none)
    (hw : env.timeoutWins = true) :
    (Connect c env hostname port).error =
      some (GoError.wrap "could not do tls handshake" GoError.timeout)
  ∧ ((Connect c env hostname port).error.map GoError.cause) = some GoError.timeout
  ∧ (∀ e, GoError.cause (GoError.wrap "could not do tls handshake" GoError.timeout) ≠
      GoError.engine e)
  ∧ timeoutErrorTimeout = true
  ∧ timeoutErrorTemporary = true
  ∧ (Connect c env hostname port).response = none := by
  obtain ⟨dr, he, hl, tw, pf⟩ := env
  simp only at hd hw
  subst hd
  subst hw
  simp [Connect, raceResult, ht, GoError.cause, timeoutErrorTimeout, timeoutErrorTemporary]

/-- Environment in which the timer wins the race. -/
def envT : ConnEnv := {
  dialResult := none
  handshakeError := none
  handshakeLog := sampleLog
  timeoutWins := true
  parse := noParse }

/-- Witness for C2 at a concrete client and environment. -/
theorem Connect_timeout_error_witness :
    (Connect sampleClient5 envT "example.com" "443").error =
      some (GoError.wrap "could not do tls handshake" GoError.timeout)
  ∧ (Connect sampleClient5 envT "example.com" "443").response = none :=
  ⟨(Connect_timeout_error sampleClient5 envT "example.com" "443" (by decide) rfl rfl).1,
   (Connect_timeout_error sampleClient5 envT "example.com" "443" (by decide) rfl rfl).2.2.2.2.2⟩

/-! ### Claim C3 -/

/-- C3: when the handshake engine returns the certs-only sentinel (and the
timer does not win the race), Connect suppresses the sentinel and succeeds,
returning the response built from the handshake log, whose leaf is the
extracted record of the log server certificate. -/
theorem Connect_certs_only_success (c : Client) (env : ConnEnv) (hostname port : String)
    (hd : env.dialResult = none)
    (he : env.handshakeError = some EngineError.errCertsOnly)
    (hw : c.dialerTimeout = 0 ∨ env.timeoutWins = false) :
    (Connect c env hostname port).error = none
  ∧ (Connect c env hostname port).response =
      some (buildResponse env.parse hostname port env.handshakeLog)
  ∧ (buildResponse env.parse hostname port env.handshakeLog).Leaf =
      convertCertificateToResponse
        (parseSimpleTLSCertificate env.parse env.handshakeLog.ServerCertificates.Certificate) := by
  have hr : raceResult c.dialerTimeout env.timeoutWins env.handshakeError =
      some (GoError.engine EngineError.errCertsOnly) := by
    rcases hw with hw | hw <;>
      by_cases h0 : c.dialerTimeout = 0 <;> simp [raceResult, he, hw, h0]
  have h := Connect_success c env hostname port hd (Or.inr hr)
  exact ⟨h.2, h.1, rfl⟩

/-- Environment in which the engine reports the certs-only sentinel and the
decoder succeeds. -/
def envCO : ConnEnv := {
  dialResult := none
  handshakeError := some EngineError.errCertsOnly
  handshakeLog := sampleLog
  timeoutWins := false
  parse := okParse }

/-- Witness for C3 at a concrete client and environment; the leaf record is
populated from the decoded certificate. -/
theorem Connect_certs_only_success_witness :
    (Connect sampleClient0 envCO "example.com" "443").error = none
  ∧ (Connect sampleClient0 envCO "example.com" "443").response =
      some (buildResponse okParse "example.com" "443" sampleLog)
  ∧ (buildResponse okParse "example.com" "443" sampleLog).Leaf.SubjectCommonName =
      "example.com" :=
  ⟨(Connect_certs_only_success sampleClient0 envCO "example.com" "443" rfl rfl (Or.inl rfl)).1,
   (Connect_certs_only_success sampleClient0 envCO "example.com" "443" rfl rfl (Or.inl rfl)).2.1,
   by decide⟩

/-! ### Claim C4 -/

/-- C4: New fails with a config error naming the invalid token (and a nil
client) whenever a supplied min or max version token is unrecognized, and
succeeds whenever each supplied token is recognized or empty; the
recognized tokens are exactly ssl30, tls10, tls11 and tls12. -/
theorem New_version_validation (options : Options) :
    ((options.MinVersion = "" ∨ (versionStringToTLSVersion options.MinVersion).isSome = true) →
     (options.MaxVersion = "" ∨ (versionStringToTLSVersion options.MaxVersion).isSome = true) →
      (New options).1.isSome = true ∧ (New options).2 = none)
  ∧ (options.MinVersion ≠ "" → versionStringToTLSVersion options.MinVersion = none →
      (New options).1 = none ∧
      (New options).2 = some ("invalid min version specified: " ++ options.MinVersion))
  ∧ ((options.MinVersion = "" ∨ (versionStringToTLSVersion options.MinVersion).isSome = true) →
     options.MaxVersion ≠ "" → versionStringToTLSVersion options.MaxVersion = none →
      (New options).1 = none ∧
      (New options).2 = some ("invalid max version specified: " ++ options.MaxVersion))
  ∧ (∀ s : String, (versionStringToTLSVersion s).isSome = true ↔
      (s = "ssl30" ∨ s = "tls10" ∨ s = "tls11" ∨ s = "tls12")) := by
  refine ⟨?_, ?_, ?_, ?_⟩
  · intro h1 h2
    by_cases hm : options.MinVersion = ""
    · by_cases hx : options.MaxVersion = ""
      · simp [New, hm, hx]
      · obtain ⟨v2, hv2⟩ := Option.isSome_iff_exists.mp (h2.resolve_left hx)
        simp [New, hm, hx, hv2]
    · obtain ⟨v1, hv1⟩ := Option.isSome_iff_exists.mp (h1.resolve_left hm)
      by_cases hx : options.MaxVersion = ""
      · simp [New, hm, hx, hv1]
      · obtain ⟨v2, hv2⟩ := Option.isSome_iff_exists.mp (h2.resolve_left hx)
        simp [New, hm, hx, hv1, hv2]
  · intro hm hnone
    simp [New, hm, hnone]
  · intro h1 hx hnone
    by_cases hm : options.MinVersion = ""
    · simp [New, hm, hx, hnone]
    · obtain ⟨v1, hv1⟩ := Option.isSome_iff_exists.mp (h1.resolve_left hm)
      simp [New, hm, hx, hv1, hnone]
  · intro s
    simp only [versionStringToTLSVersion]
    split_ifs with h1 h2 h3 h4 <;> simp_all

/-- Options with an unrecognized min version token. -/
def optBogus : Options := {
  Timeout := 1
  ServerName := ""
  MinVersion := "bogus"
  MaxVersion := ""
  CertsOnly := false
  VerifyServerCertificate := false }

/-- Options with recognized version tokens. -/
def optGood : Options := {
  Timeout := 1
  ServerName := ""
  MinVersion := "ssl30"
  MaxVersion := "tls12"
  CertsOnly := false
  VerifyServerCertificate := false }

/-- Witness for C4: the bogus token fails with the naming message, the
recognized tokens succeed. -/
theorem New_version_validation_witness :
    ((New optBogus).1 = none ∧
     (New optBogus).2 = some ("invalid min version specified: " ++ "bogus"))
  ∧ ((New optGood).1.isSome = true ∧ (New optGood).2 = none) :=
  ⟨(New_version_validation optBogus).2.1 (by decide) (by decide),
   (New_version_validation optGood).1 (Or.inr (by decide)) (Or.inr (by decide))⟩

/-! ### Claim C5 -/

/-- C5: the version of any response Connect produces is the version-table
token of the ServerHello numeric version from the handshake log; the four
known identifiers translate to their tokens, every other numeric version
translates to the empty string, and an unrecognized version still lets
Connect succeed when the handshake succeeds. -/
theorem Connect_version_string (c : Client) (env : ConnEnv) (hostname port : String) :
    (∀ resp, (Connect c env hostname port).response = some resp →
      resp.Version = versionToTLSVersionString (env.handshakeLog.ServerHello.Version % 65536))
  ∧ (env.dialResult = none → env.handshakeError = none →
     (c.dialerTimeout = 0 ∨ env.timeoutWins = false) →
      (Connect c env hostname port).error = none ∧
      (Connect c env hostname port).response.isSome = true)
  ∧ versionToTLSVersionString VersionSSL30 = "ssl30"
  ∧ versionToTLSVersionString VersionTLS10 = "tls10"
  ∧ versionToTLSVersionString VersionTLS11 = "tls11"
  ∧ versionToTLSVersionString VersionTLS12 = "tls12"
  ∧ (∀ v : Nat, v ≠ VersionSSL30 → v ≠ VersionTLS10 → v ≠ VersionTLS11 → v ≠ VersionTLS12 →
      versionToTLSVersionString v = "") := by
  refine ⟨?_, ?_, by decide, by decide, by decide, by decide, ?_⟩
  · intro resp hok
    rw [Connect_response_some c env hostname port resp hok]
    rfl
  · intro hd he hw
    have hr : raceResult c.dialerTimeout env.timeoutWins env.handshakeError = none := by
      rcases hw with hw | hw <;>
        by_cases h0 : c.dialerTimeout = 0 <;> simp [raceResult, he, hw, h0]
    have h := Connect_success c env hostname port hd (Or.inl hr)
    exact ⟨h.2, by rw [h.1]; rfl⟩
  · intro v h1 h2 h3 h4
    simp [versionToTLSVersionString, h1, h2, h3, h4]

/-- Handshake log carrying a numeric version outside the version table. -/
def logU : HandshakeLog := {
  ServerHello := { Version := 0x0304 }
  ServerCertificates := { Certificate := { Raw := [] }, Chain := [] } }

/-- Environment with the unknown-version log. -/
def envU : ConnEnv := {
  dialResult := none
  handshakeError := none
  handshakeLog := logU
  timeoutWins := false
  parse := noParse }

/-- The response Connect builds in the unknown-version environment. -/
def respU : Response := {
  Host := "example.com"
  Port := "443"
  Version := ""
  TLSConnection := "ztls"
  Leaf := {}
  Chain := [] }

/-- Witness for C5: an unknown ServerHello version yields an empty version
string and Connect still succeeds. -/
theorem Connect_version_string_witness :
    (Connect sampleClient0 envU "example.com" "443").error = none
  ∧ (Connect sampleClient0 envU "example.com" "443").response.isSome = true
  ∧ respU.Version = "" :=
  ⟨((Connect_version_string sampleClient0 envU "example.com" "443").2.1 rfl rfl (Or.inl rfl)).1,
   ((Connect_version_string sampleClient0 envU "example.com" "443").2.1 rfl rfl (Or.inl rfl)).2,
   by
    have h := (Connect_version_string sampleClient0 envU "example.com" "443").1 respU (by decide)
    simpa using h⟩

/-! ### Claim C6 -/

/-- C6: when the TCP dial fails, Connect returns a connection error
wrapping the dial failure and a nil response, and no handshake event
(synchronous or asynchronous) occurs. -/
theorem Connect_dial_failure (c : Client) (env : ConnEnv) (hostname port msg : String)
    (hd : env.dialResult = some msg) :
    (Connect c env hostname port).response = none
  ∧ (Connect c env hostname port).error =
      some (GoError.wrap "could not connect to address" (GoError.dialErr msg))
  ∧ Event.handshakeSync ∉ (Connect c env hostname port).events
  ∧ Event.handshakeAsync ∉ (Connect c env hostname port).events := by
  obtain ⟨dr, he, hl, tw, pf⟩ := env
  simp only at hd
  subst hd
  refine ⟨rfl, rfl, ?_, ?_⟩ <;>
  · simp only [Connect]
    by_cases h0 : c.dialerTimeout = 0 <;> simp [h0]

/-- Environment in which the TCP dial fails. -/
def envD : ConnEnv := {
  dialResult := some "connection refused"
  handshakeError := none
  handshakeLog := sampleLog
  timeoutWins := false
  parse := noParse }

/-- Witness for C6 at a concrete failing dial. -/
theorem Connect_dial_failure_witness :
    (Connect sampleClient5 envD "example.com" "443").response = none
  ∧ (Connect sampleClient5 envD "example.com" "443").error =
      some (GoError.wrap "could not connect to address" (GoError.dialErr "connection refused")) :=
  ⟨(Connect_dial_failure sampleClient5 envD "example.com" "443" "connection refused" rfl).1,
   (Connect_dial_failure sampleClient5 envD "example.com" "443" "connection refused" rfl).2.1⟩

/-! ### Claim C7 -/

/-- C7: the chain of any response Connect produces has the same length as
the server certificate chain of the handshake log, and its i-th record is
the extracted record of the i-th raw certificate — transmission order is
preserved exactly. -/
theorem Connect_chain_order (c : Client) (env : ConnEnv) (hostname port : String)
    (resp : Response) (hok : (Connect c env hostname port).response = some resp) :
    resp.Chain.length = env.handshakeLog.ServerCertificates.Chain.length
  ∧ ∀ i : Nat, resp.Chain[i]? =
      (env.handshakeLog.ServerCertificates.Chain[i]?).map fun cert =>
        convertCertificateToResponse (parseSimpleTLSCertificate env.parse cert) := by
  have h := Connect_response_some c env hostname port resp hok
  subst h
  constructor
  · simp [buildResponse]
  · intro i
    simp [buildResponse]

/-- Environment for the chain-order witness: two chain certificates, a
succeeding decoder. -/
def envC7 : ConnEnv := {
  dialResult := none
  handshakeError := none
  handshakeLog := sampleLog
  timeoutWins := false
  parse := okParse }

/-- Witness for C7 at a concrete two-certificate chain. -/
theorem Connect_chain_order_witness :
    (buildResponse okParse "example.com" "443" sampleLog).Chain.length =
      sampleLog.ServerCertificates.Chain.length
  ∧ (buildResponse okParse "example.com" "443" sampleLog).Chain[0]? =
      (sampleLog.ServerCertificates.Chain[0]?).map fun cert =>
        convertCertificateToResponse (parseSimpleTLSCertificate okParse cert) :=
  ⟨(Connect_chain_order sampleClient0 envC7 "example.com" "443"
      (buildResponse okParse "example.com" "443" sampleLog) (by decide)).1,
   (Connect_chain_order sampleClient0 envC7 "example.com" "443"
      (buildResponse okParse "example.com" "443" sampleLog) (by decide)).2 0⟩

/-! ### Claim C8 -/

/-- C8: the certificate-extraction pipeline is total — when the decoder
fails it yields the zero-value record, and when the decoder succeeds it
projects exactly the DNS names, emails, issuer common name and
organization, and subject common name and organization of the decoded
certificate.  No error escapes: the return type carries no error at all. -/
theorem convert_extract_spec (parse : List Nat → Option Certificate) (cert : SimpleCertificate) :
    (parse cert.Raw = none →
      convertCertificateToResponse (parseSimpleTLSCertificate parse cert) =
        ({} : CertificateResponse))
  ∧ ∀ c0 : Certificate, parse cert.Raw = some c0 →
      convertCertificateToResponse (parseSimpleTLSCertificate parse cert) = {
        DNSNames := c0.DNSNames
        Emails := c0.EmailAddresses
        IssuerCommonName := c0.Issuer.CommonName
        IssuerOrganization := c0.Issuer.Organization
        SubjectCommonName := c0.Subject.CommonName
        SubjectOrganization := c0.Subject.Organization } := by
  constructor
  · intro h
    simp [parseSimpleTLSCertificate, convertCertificateToResponse, h]
  · intro c0 h
    simp [parseSimpleTLSCertificate, convertCertificateToResponse, h]

/-- Witness for C8: a corrupted byte sequence (decoder fails) yields the
zero-value record. -/
theorem convert_extract_spec_witness :
    convertCertificateToResponse (parseSimpleTLSCertificate noParse { Raw := [1, 2, 3] }) =
      ({} : CertificateResponse) :=
  (convert_extract_spec noParse { Raw := [1, 2, 3] }).1 rfl

/-! ### Claim C9 -/

/-- C9: after any Connect call, every field of the base client config is
unchanged — the server-name override is applied only to a per-connection
copy, never to the shared configuration. -/
theorem Connect_config_frame (c : Client) (env : ConnEnv) (hostname port : String) :
    (Connect c env hostname port).clientAfter = c
  ∧ (Connect c env hostname port).clientAfter.tlsConfig.ServerName = c.tlsConfig.ServerName
  ∧ (Connect c env hostname port).clientAfter.tlsConfig.MinVersion = c.tlsConfig.MinVersion
  ∧ (Connect c env hostname port).clientAfter.tlsConfig.MaxVersion = c.tlsConfig.MaxVersion
  ∧ (Connect c env hostname port).clientAfter.tlsConfig.CertsOnly = c.tlsConfig.CertsOnly
  ∧ (Connect c env hostname port).clientAfter.tlsConfig.InsecureSkipVerify =
      c.tlsConfig.InsecureSkipVerify := by
  have h := Connect_clientAfter_eq c env hostname port
  simp [h]

/-! ### Claim C10 -/

/-- C10: with a non-zero timeout the channel is created and the timer
scheduled before the dial event, and they are present in the trace even
when the dial fails (the timer is never cancelled, so it fires and writes
into the two-slot channel regardless); with timeout zero no channel or
timer event exists and the handshake event is the synchronous one. -/
theorem Connect_timer_trace (c : Client) (env : ConnEnv) (hostname port : String) :
    (c.dialerTimeout ≠ 0 → (∃ msg, env.dialResult = some msg) →
      (Connect c env hostname port).events =
        [Event.makeErrChannel, Event.scheduleTimer c.dialerTimeout, Event.dial])
  ∧ (c.dialerTimeout ≠ 0 → env.dialResult = none →
      (Connect c env hostname port).events =
        [Event.makeErrChannel, Event.scheduleTimer c.dialerTimeout, Event.dial,
         Event.handshakeAsync])
  ∧ (c.dialerTimeout = 0 → (∃ msg, env.dialResult = some msg) →
      (Connect c env hostname port).events = [Event.dial])
  ∧ (c.dialerTimeout = 0 → env.dialResult = none →
      (Connect c env hostname port).events = [Event.dial, Event.handshakeSync]) := by
  obtain ⟨dr, he, hl, tw, pf⟩ := env
  refine ⟨?_, ?_, ?_, ?_⟩
  · rintro ht ⟨msg, hd⟩
    simp only at hd
    subst hd
    simp [Connect, ht]
  · intro ht hd
    simp only at hd
    subst hd
    simp only [Connect]
    split <;> simp [ht]
  · rintro h0 ⟨msg, hd⟩
    simp only at hd
    subst hd
    simp [Connect, h0]
  · intro h0 hd
    simp only at hd
    subst hd
    simp only [Connect]
    split <;> simp [h0]

/-- Witness for C10: with timeout 5 and a failing dial, the trace is
channel creation, timer scheduling, then the dial. -/
theorem Connect_timer_trace_witness :
    (Connect sampleClient5 envD "example.com" "443").events =
      [Event.makeErrChannel, Event.scheduleTimer 5, Event.dial] :=
  (Connect_timer_trace sampleClient5 envD "example.com" "443").1 (by decide)
    ⟨"connection refused", rfl⟩

end Ztls
